import Mathlib

/-!
Verification development for `prefect_snowflake/database.py`.

The file shallowly embeds the three components of the module that the
checked properties concern:

* the connect-parameter resolution `SnowflakeConnector._get_connect_params`
  (a Python `dict` pipeline, modelled as an association list with the
  dict operations used by the source: filter of unset values, in-place
  value update, `pop`, and key assignment);
* the asynchronous submit/poll/fetch executor (`_async_execute_operation`,
  `snowflake_query`, `fetch_many`), modelled as a trace-producing function
  over an environment that fixes the successive status reports of the
  server, the result rows, and an optional cancellation point;
* the multi-operation runner `snowflake_multiquery`, modelled with the
  same per-operation environment, recording which operations were
  submitted and the final state of the caller's (mutated) query list.
-/

/-! ## Dictionary values

Python dict values here are either plain data or secret handles
(pydantic `SecretStr`/`SecretBytes`); `get_secret_value()` reveals the
wrapped plaintext. -/

/-- A value stored in the connect-params dict: plain data, or an opaque
secret handle wrapping a plaintext that `get_secret_value` reveals. -/
inductive CVal where
  | plain (s : String)
  | secret (s : String)
deriving DecidableEq

/-- Embeds `get_secret_value()`: reveal a secret handle to its plaintext.
Plain values are returned unchanged (the source only applies this to keys
whose merged value is always a secret handle). -/
def reveal : CVal → CVal
  | .plain s => .plain s
  | .secret s => .plain s

/-! ## Dict operations used by `_get_connect_params`

The source manipulates one Python `dict`; we model it as an association
list with (unique) string keys and define exactly the operations the
source uses. -/

/-- The connect-params dict. -/
abbrev Params := List (String × CVal)

/-- Embeds `d.get(k)` / `d[k]` read access on an association list. -/
def lookupKey {α : Type} : List (String × α) → String → Option α
  | [], _ => none
  | (k', v) :: rest, k => if k' = k then some v else lookupKey rest k

/-- Embeds the dict comprehension filtering out `None` values:
`{param: value for param, value in connect_params.items() if value is not None}`. -/
def filterVals : List (String × Option CVal) → Params
  | [] => []
  | (_, none) :: rest => filterVals rest
  | (k, some v) :: rest => (k, v) :: filterVals rest

/-- Embeds `if param in d: d[param] = f(d[param])`: applies `f` to the
value at key `k` when present, leaves the dict unchanged otherwise. -/
def updateKey (f : CVal → CVal) : Params → String → Params
  | [], _ => []
  | (k', v) :: rest, k =>
      if k' = k then (k', f v) :: updateKey f rest k
      else (k', v) :: updateKey f rest k

/-- Embeds dict assignment `d[k] = v`: updates the entry when the key is
present, appends a new entry otherwise. -/
def setKey : Params → String → CVal → Params
  | [], k, v => [(k, v)]
  | (k', v') :: rest, k, v =>
      if k' = k then (k, v) :: rest
      else (k', v') :: setKey rest k v

/-- Embeds `d.pop(k, None)` / successful `d.pop(k)`: removes the entry
with key `k`. -/
def eraseKey : Params → String → Params
  | [], _ => []
  | (k', v) :: rest, k =>
      if k' = k then eraseKey rest k
      else (k', v) :: eraseKey rest k

/-- Raised by Python `d.pop(k)` when `k` is absent. -/
inductive KeyError where
  | keyError
deriving DecidableEq

/-! ## Credentials and connector data model

`SnowflakeCredentials` itself lives in a module of the repository that is
not part of the embedded source; only the fields its `dict()` contributes
to `_get_connect_params` and its `resolve_private_key()` method are
needed here. -/

/-- Modelled from the spec: the credential block consumed by
`SnowflakeConnector`. Its `dict()` exposes the account identity, the user
and the optional fields below; `password`, `private_key` and `token` are
secret handles, the rest are plain values (spec section 4.1: auth modes
are password, key-pair, token, or SSO endpoint via
`authenticator`/`okta_endpoint`). -/
structure SnowflakeCredentials where
  account : String
  user : String
  password : Option String
  private_key : Option String
  token : Option String
  authenticator : Option String
  okta_endpoint : Option String
  role : Option String
deriving DecidableEq

/-- Embeds `self.credentials.dict()`: pydantic returns one entry per
field, with `None` for unset optional fields; secrets stay wrapped. -/
def SnowflakeCredentials.dict (c : SnowflakeCredentials) :
    List (String × Option CVal) :=
  [ ("account", some (.plain c.account))
  , ("user", some (.plain c.user))
  , ("password", c.password.map .secret)
  , ("private_key", c.private_key.map .secret)
  , ("token", c.token.map .secret)
  , ("authenticator", c.authenticator.map .plain)
  , ("okta_endpoint", c.okta_endpoint.map .plain)
  , ("role", c.role.map .plain) ]

/-- Modelled from the spec: `resolve_private_key()` (defined in the
credentials module, outside the embedded source) returns the private key
in DER form exactly when the private-key field is populated (spec
section 4.1: "if a private key is resolvable from credentials, it
supersedes password"). The DER transformation itself is opaque here. -/
def SnowflakeCredentials.resolve_private_key
    (c : SnowflakeCredentials) : Option CVal :=
  c.private_key.map (fun k => .plain ("DER " ++ k))

/-- Embeds the `SnowflakeConnector` block fields used by
`_get_connect_params`: default database, warehouse, schema (stored as
`schema_`, aliased `schema`) and the credential block. -/
structure SnowflakeConnector where
  database : String
  warehouse : String
  schema_ : String
  credentials : SnowflakeCredentials
deriving DecidableEq

/-! ## `_get_connect_params`, in the stages of the source -/

/-- Embeds the initial dict literal of `_get_connect_params`: the
connector defaults, the partner-network `application` tag, and the
splatted `self.credentials.dict()` (all keys are distinct, so the splat
is a plain concatenation). -/
def mergedParams (self : SnowflakeConnector) : List (String × Option CVal) :=
  [ ("database", some (.plain self.database))
  , ("warehouse", some (.plain self.warehouse))
  , ("schema", some (.plain self.schema_))
  , ("application", some (.plain "Prefect_Snowflake_Collection")) ]
  ++ self.credentials.dict

/-- Embeds the "filter out unset values" comprehension. -/
def filteredParams (self : SnowflakeConnector) : Params :=
  filterVals (mergedParams self)

/-- Embeds the loop `for param in ("password", "private_key", "token"):
if param in connect_params: connect_params[param] = ...get_secret_value()`. -/
def revealedParams (self : SnowflakeConnector) : Params :=
  updateKey reveal
    (updateKey reveal
      (updateKey reveal (filteredParams self) "password")
      "private_key")
    "token"

/-- Embeds the SSO-endpoint substitution: when
`connect_params.get("authenticator") == "okta_endpoint"`, the source runs
`connect_params["authenticator"] = connect_params.pop("okta_endpoint")`;
`pop` raises `KeyError` when the key is absent. The `pop`-then-assign of
the source touches two distinct keys, so it is embedded as
assign-then-erase. -/
def oktaParams (self : SnowflakeConnector) : Except KeyError Params :=
  if lookupKey (revealedParams self) "authenticator"
      = some (.plain "okta_endpoint") then
    match lookupKey (revealedParams self) "okta_endpoint" with
    | some v =>
        .ok (eraseKey (setKey (revealedParams self) "authenticator" v)
              "okta_endpoint")
    | none => .error .keyError
  else
    .ok (revealedParams self)

/-- Embeds `SnowflakeConnector._get_connect_params`: after the stages
above, if `self.credentials.resolve_private_key()` is not `None` the
source assigns `connect_params["private_key"] = private_der_key` and then
runs `connect_params.pop("password", None)`. -/
def _get_connect_params (self : SnowflakeConnector) : Except KeyError Params :=
  (oktaParams self).map fun cp =>
    match self.credentials.resolve_private_key with
    | some der => eraseKey (setKey cp "private_key" der) "password"
    | none => cp

/-! ## Asynchronous executor model

`_async_execute_operation`, `snowflake_query` and the `fetch_*` methods
all drive the same submit/poll/fetch protocol:

```
response = cursor.execute_async(operation, params=...)
query_id = response["queryId"]
while connection.is_still_running(
        connection.get_query_status_throw_if_error(query_id)):
    await asyncio.sleep(interval_seconds)
cursor.get_results_from_sfqid(query_id)
... fetch ...
```

inside `with get_connection()` / `with connection.cursor(...)` blocks.
The embedding fixes an environment: the successive status reports the
server returns, the rows of the final result set, and an optional index
of the sleep during which the surrounding task is cancelled
(`asyncio.sleep` then raises `CancelledError` at the suspension point).
Execution is a pure function returning the outcome together with the
trace of driver calls performed, which lets the theorems speak about
which calls happened and in what number. -/

/-- A result row. -/
abbrev Row := List Int

/-- A result set, as returned by `cursor.fetchall()`. -/
abbrev ResultSet := List Row

/-- Status of the remote query as reported by one call to
`connection.get_query_status_throw_if_error`: still running, finished
successfully, or the call raises because the server reports an error. -/
inductive StatusReport where
  | running
  | succeeded
  | failed
deriving DecidableEq

/-- Errors of the embedded executor: `statusError` models
`get_query_status_throw_if_error` raising; `cancelled` models
`asyncio.CancelledError` delivered at the sleep suspension point;
`reportsExhausted` is a model artefact for an environment whose report
list ends before a terminal status (the real loop would keep polling). -/
inductive ExecError where
  | statusError
  | cancelled
  | reportsExhausted
deriving DecidableEq

/-- Driver calls recorded in the execution trace. -/
inductive Event where
  | connOpen
  | cursorOpen
  | submit
  | statusCheck
  | sleep
  | loadResults
  | fetchAllCall
  | fetchManyCall
  | fetchOneCall
  | cursorClose
  | connClose
deriving DecidableEq

/-- Environment of one operation's execution: the successive status
reports, the sleep index (0-based) at which cancellation is delivered,
if any, and the rows of the operation's result set. -/
structure ExecEnv where
  reports : List StatusReport
  cancelAt : Option Nat
  rows : ResultSet
deriving DecidableEq

/-- Embeds the poll loop `while connection.is_still_running(
connection.get_query_status_throw_if_error(query_id)): await
asyncio.sleep(interval_seconds)`. Each iteration records a `statusCheck`;
a running report records a `sleep` (during which cancellation may be
delivered); a failed report raises immediately. -/
def pollEvents (cancelAt : Option Nat) :
    List StatusReport → Nat → Except ExecError Unit × List Event
  | [], _ => (.error .reportsExhausted, [])
  | .failed :: _, _ => (.error .statusError, [.statusCheck])
  | .succeeded :: _, _ => (.ok (), [.statusCheck])
  | .running :: rest, sleepsDone =>
      if cancelAt = some sleepsDone then
        (.error .cancelled, [.statusCheck, .sleep])
      else
        let r := pollEvents cancelAt rest (sleepsDone + 1)
        (r.1, .statusCheck :: .sleep :: r.2)

/-- Embeds a Python `with` block acquiring a resource: the closing call
runs on every exit path, error or not. -/
def withBracket {α : Type} (opening closing : Event)
    (body : Except ExecError α × List Event) :
    Except ExecError α × List Event :=
  (body.1, opening :: body.2 ++ [closing])

/-- Embeds the body shared by the async executors once a cursor is held:
`execute_async`, the poll loop, then `get_results_from_sfqid`. -/
def opBody (env : ExecEnv) : Except ExecError ResultSet × List Event :=
  let p := pollEvents env.cancelAt env.reports 0
  match p.1 with
  | .error e => (.error e, .submit :: p.2)
  | .ok _ => (.ok env.rows, .submit :: p.2 ++ [.loadResults])

/-- Embeds a full async execution: connection and cursor `with` blocks
around `opBody`, followed on success by one fetch call (`fetchEv`) whose
result is `fetchFn` of the loaded rows. -/
def runFetch {α : Type} (env : ExecEnv) (fetchEv : Event)
    (fetchFn : ResultSet → α) : Except ExecError α × List Event :=
  withBracket .connOpen .connClose
    (withBracket .cursorOpen .cursorClose
      (let b := opBody env
       match b.1 with
       | .error e => (.error e, b.2)
       | .ok rows => (.ok (fetchFn rows), b.2 ++ [fetchEv])))

/-- Embeds the task `snowflake_query`: async execution then
`cursor.fetchall()`. -/
def snowflake_query (env : ExecEnv) : Except ExecError ResultSet × List Event :=
  runFetch env .fetchAllCall id

/-- Embeds `SnowflakeConnector.fetch_many`: async execution then
`cursor.fetchmany(size=limit)`. Per the driver's DB-API contract (an
external collaborator), `fetchmany` returns at most `limit` rows, here
`List.take limit`. -/
def fetch_many (env : ExecEnv) (limit : Nat) :
    Except ExecError (List Row) × List Event :=
  runFetch env .fetchManyCall (fun rows => rows.take limit)

/-- Embeds a call of `fetch_many` without an explicit `limit` argument:
the source declares `limit: Optional[int] = 5`, so such a call uses 5. -/
def fetch_many_default (env : ExecEnv) :
    Except ExecError (List Row) × List Event :=
  fetch_many env 5

/-! ## Multi-operation runner model (`snowflake_multiquery`)

The runner opens one connection and one cursor, optionally mutates the
caller's `queries` list in place (`queries.insert(0, BEGIN)` /
`queries.append(COMMIT)`), then runs the submit/poll/fetch protocol for
each query in order, appending each `fetchall()` result; an error in any
poll loop propagates and stops the remaining submissions. The embedding
gives each query text its own `ExecEnv` and records, besides the
outcome, the list of operations actually submitted and the final state
of the caller's query list. -/

def BEGIN_TRANSACTION_STATEMENT : String := "BEGIN TRANSACTION"

def END_TRANSACTION_STATEMENT : String := "COMMIT"

/-- Outcome of one query's poll loop (the trace is irrelevant for the
runner's properties). -/
def pollOutcome (e : ExecEnv) : Except ExecError Unit :=
  (pollEvents e.cancelAt e.reports 0).1

/-- Embeds the `for query in queries:` loop of `snowflake_multiquery`:
submit, poll, load, `fetchall`, append. Returns the collected results
(or the first error) together with the queries submitted, in order. -/
def runQueries (env : String → ExecEnv) :
    List String → Except ExecError (List ResultSet) × List String
  | [] => (.ok [], [])
  | q :: rest =>
      match pollOutcome (env q) with
      | .error e => (.error e, [q])
      | .ok _ =>
          let r := runQueries env rest
          ((match r.1 with
            | .error e => .error e
            | .ok rss => .ok ((env q).rows :: rss)), q :: r.2)

/-- Result of one `snowflake_multiquery` call: the returned value (or
propagated error), the operations submitted, and the final state of the
caller's `queries` list (the source mutates it in place). -/
structure MultiqueryRun where
  outcome : Except ExecError (List ResultSet)
  submitted : List String
  queriesFinal : List String

/-- Embeds the task `snowflake_multiquery`. When `as_transaction` is
true the source runs `queries.insert(0, BEGIN_TRANSACTION_STATEMENT)`
and `queries.append(END_TRANSACTION_STATEMENT)` on the caller's list,
then executes every query on one shared cursor; afterwards, when
`as_transaction and not return_transaction_control_results`, it returns
`results[1:-1]`, embedded as `(results.drop 1).dropLast`. -/
def snowflake_multiquery (env : String → ExecEnv) (queries : List String)
    (as_transaction : Bool) (return_transaction_control_results : Bool) :
    MultiqueryRun :=
  let queriesMut :=
    if as_transaction then
      BEGIN_TRANSACTION_STATEMENT :: queries ++ [END_TRANSACTION_STATEMENT]
    else queries
  let r := runQueries env queriesMut
  let outcome :=
    match r.1 with
    | .error e => .error e
    | .ok results =>
        if as_transaction && !return_transaction_control_results then
          .ok ((results.drop 1).dropLast)
        else
          .ok results
  ⟨outcome, r.2, queriesMut⟩

/-! ## Concrete example inputs used by the witness theorems -/

/-- Example credential set with only the password auth mode populated. -/
def credsPasswordOnly : SnowflakeCredentials :=
  ⟨"acct", "user", some "pw", none, none, none, none, none⟩

/-- Example connector around `credsPasswordOnly`. -/
def connPasswordOnly : SnowflakeConnector :=
  ⟨"db", "wh", "sc", credsPasswordOnly⟩

/-- The connect params resolved from `connPasswordOnly`. -/
def paramsPasswordOnly : Params :=
  [ ("database", .plain "db")
  , ("warehouse", .plain "wh")
  , ("schema", .plain "sc")
  , ("application", .plain "Prefect_Snowflake_Collection")
  , ("account", .plain "acct")
  , ("user", .plain "user")
  , ("password", .plain "pw") ]

/-- Example credential set with both a password and a private key. -/
def credsWithKey : SnowflakeCredentials :=
  ⟨"acct", "user", some "pw", some "KEY", none, none, none, none⟩

/-- Example connector around `credsWithKey`. -/
def connWithKey : SnowflakeConnector :=
  ⟨"db", "wh", "sc", credsWithKey⟩

/-- The connect params resolved from `connWithKey`: the private key in
DER form superseded and removed the password. -/
def paramsWithKey : Params :=
  [ ("database", .plain "db")
  , ("warehouse", .plain "wh")
  , ("schema", .plain "sc")
  , ("application", .plain "Prefect_Snowflake_Collection")
  , ("account", .plain "acct")
  , ("user", .plain "user")
  , ("private_key", .plain "DER KEY") ]

/-- Example credential set with every optional field unset. -/
def credsAllUnset : SnowflakeCredentials :=
  ⟨"acct", "user", none, none, none, none, none, none⟩

/-- Example connector around `credsAllUnset`. -/
def connAllUnset : SnowflakeConnector :=
  ⟨"db", "wh", "sc", credsAllUnset⟩

/-- The connect params resolved from `connAllUnset`. -/
def paramsAllUnset : Params :=
  [ ("database", .plain "db")
  , ("warehouse", .plain "wh")
  , ("schema", .plain "sc")
  , ("application", .plain "Prefect_Snowflake_Collection")
  , ("account", .plain "acct")
  , ("user", .plain "user") ]

/-- Example credential set using the SSO-endpoint sentinel. -/
def credsOkta : SnowflakeCredentials :=
  ⟨"acct", "user", some "pw", none, none, some "okta_endpoint",
    some "https://dev-123.okta.com", none⟩

/-- Example connector around `credsOkta`. -/
def connOkta : SnowflakeConnector :=
  ⟨"db", "wh", "sc", credsOkta⟩

/-- The connect params resolved from `connOkta`: the authenticator is
the literal endpoint URL and the sentinel field is gone. -/
def paramsOkta : Params :=
  [ ("database", .plain "db")
  , ("warehouse", .plain "wh")
  , ("schema", .plain "sc")
  , ("application", .plain "Prefect_Snowflake_Collection")
  , ("account", .plain "acct")
  , ("user", .plain "user")
  , ("password", .plain "pw")
  , ("authenticator", .plain "https://dev-123.okta.com") ]

/-- Example environment whose status checks report running twice and
then succeeded. -/
def envTwoRunning : ExecEnv :=
  ⟨[.running, .running, .succeeded], none, [[7]]⟩

/-- Example environment cancelled during its second sleep (index 1),
with the server still reporting running. -/
def envCancelSecondSleep : ExecEnv :=
  ⟨[.running, .running, .running], some 1, [[7]]⟩

/-- Example environment that succeeds immediately with seven rows. -/
def envSevenRows : ExecEnv :=
  ⟨[.succeeded], none, [[1], [2], [3], [4], [5], [6], [7]]⟩

/-- Example multiquery environment in which every operation succeeds at
the first status check. -/
def envAllSucceed : String → ExecEnv := fun q =>
  ⟨[.succeeded], none,
    if q = "SELECT 1" then [[1]] else if q = "SELECT 2" then [[2]] else [[0]]⟩

/-- Example multiquery environment in which the status check of
`"SELECT 2"` raises and every other operation succeeds. -/
def envSecondFails : String → ExecEnv := fun q =>
  if q = "SELECT 2" then ⟨[.running, .failed], none, []⟩
  else ⟨[.succeeded], none, [[1]]⟩

/-! ### Lookup lemmas for the dict operations -/

theorem lookupKey_updateKey_self (f : CVal → CVal) (m : Params) (k : String) :
    lookupKey (updateKey f m k) k = (lookupKey m k).map f := by
  induction m with
  | nil => rfl
  | cons p rest ih =>
      obtain ⟨k', v⟩ := p
      by_cases h : k' = k <;> simp [updateKey, lookupKey, h, ih]

theorem lookupKey_updateKey_ne (f : CVal → CVal) (m : Params) (k k₂ : String)
    (h : k₂ ≠ k) : lookupKey (updateKey f m k) k₂ = lookupKey m k₂ := by
  induction m with
  | nil => rfl
  | cons p rest ih =>
      obtain ⟨k', v⟩ := p
      by_cases h1 : k' = k
      · subst h1
        simp [updateKey, lookupKey, Ne.symm h, ih]
      · by_cases h2 : k' = k₂ <;> simp [updateKey, lookupKey, h, h1, h2, ih]

theorem lookupKey_setKey_self (m : Params) (k : String) (v : CVal) :
    lookupKey (setKey m k v) k = some v := by
  induction m with
  | nil => simp [setKey, lookupKey]
  | cons p rest ih =>
      obtain ⟨k', v'⟩ := p
      by_cases h : k' = k <;> simp [setKey, lookupKey, h, ih]

theorem lookupKey_setKey_ne (m : Params) (k k₂ : String) (v : CVal)
    (h : k₂ ≠ k) : lookupKey (setKey m k v) k₂ = lookupKey m k₂ := by
  induction m with
  | nil => simp [setKey, lookupKey, Ne.symm h]
  | cons p rest ih =>
      obtain ⟨k', v'⟩ := p
      by_cases h1 : k' = k
      · subst h1
        simp [setKey, lookupKey, Ne.symm h]
      · by_cases h2 : k' = k₂ <;> simp [setKey, lookupKey, h, h1, h2, ih]

theorem lookupKey_eraseKey_self (m : Params) (k : String) :
    lookupKey (eraseKey m k) k = none := by
  induction m with
  | nil => rfl
  | cons p rest ih =>
      obtain ⟨k', v⟩ := p
      by_cases h : k' = k <;> simp [eraseKey, lookupKey, h, ih]

theorem lookupKey_eraseKey_ne (m : Params) (k k₂ : String)
    (h : k₂ ≠ k) : lookupKey (eraseKey m k) k₂ = lookupKey m k₂ := by
  induction m with
  | nil => rfl
  | cons p rest ih =>
      obtain ⟨k', v⟩ := p
      by_cases h1 : k' = k
      · subst h1
        simp [eraseKey, lookupKey, Ne.symm h, ih]
      · by_cases h2 : k' = k₂ <;> simp [eraseKey, lookupKey, h, h1, h2, ih]

theorem lookupKey_filterVals_of_not_mem (l : List (String × Option CVal))
    (k : String) (h : ∀ p ∈ l, p.1 ≠ k) :
    lookupKey (filterVals l) k = none := by
  induction l with
  | nil => rfl
  | cons p rest ih =>
      obtain ⟨k', v⟩ := p
      have hk : k' ≠ k := h (k', v) (List.mem_cons_self _ _)
      have hrest : ∀ p ∈ rest, p.1 ≠ k := fun p hp =>
        h p (List.mem_cons_of_mem _ hp)
      cases v with
      | none => simpa [filterVals] using ih hrest
      | some v' => simp [filterVals, lookupKey, hk, ih hrest]

theorem lookupKey_filterVals (l : List (String × Option CVal)) (k : String)
    (h : (l.map Prod.fst).Nodup) :
    lookupKey (filterVals l) k = (lookupKey l k).bind id := by
  induction l with
  | nil => rfl
  | cons p rest ih =>
      obtain ⟨k', v⟩ := p
      simp only [List.map_cons, List.nodup_cons] at h
      obtain ⟨hnotmem, hrest⟩ := h
      by_cases hk : k' = k
      · subst hk
        have habs : ∀ p ∈ rest, p.1 ≠ k' := by
          intro p hp heq
          exact hnotmem (heq ▸ List.mem_map_of_mem Prod.fst hp)
        cases v with
        | none =>
            simp [filterVals, lookupKey,
              lookupKey_filterVals_of_not_mem rest k' habs]
        | some v' => simp [filterVals, lookupKey]
      · cases v with
        | none => simp [filterVals, lookupKey, hk, ih hrest]
        | some v' => simp [filterVals, lookupKey, hk, ih hrest]

/-! ### Stage lemmas for `_get_connect_params` -/

theorem mergedParams_keys (self : SnowflakeConnector) :
    (mergedParams self).map Prod.fst =
      ["database", "warehouse", "schema", "application", "account", "user",
       "password", "private_key", "token", "authenticator", "okta_endpoint",
       "role"] := rfl

theorem mergedParams_keys_nodup (self : SnowflakeConnector) :
    ((mergedParams self).map Prod.fst).Nodup := by
  rw [mergedParams_keys]
  decide

theorem lookupKey_mergedParams_password (self : SnowflakeConnector) :
    lookupKey (mergedParams self) "password"
      = some (self.credentials.password.map .secret) := rfl

theorem lookupKey_mergedParams_private_key (self : SnowflakeConnector) :
    lookupKey (mergedParams self) "private_key"
      = some (self.credentials.private_key.map .secret) := rfl

theorem lookupKey_mergedParams_token (self : SnowflakeConnector) :
    lookupKey (mergedParams self) "token"
      = some (self.credentials.token.map .secret) := rfl

theorem lookupKey_mergedParams_authenticator (self : SnowflakeConnector) :
    lookupKey (mergedParams self) "authenticator"
      = some (self.credentials.authenticator.map .plain) := rfl

theorem lookupKey_mergedParams_okta_endpoint (self : SnowflakeConnector) :
    lookupKey (mergedParams self) "okta_endpoint"
      = some (self.credentials.okta_endpoint.map .plain) := rfl

theorem lookupKey_mergedParams_role (self : SnowflakeConnector) :
    lookupKey (mergedParams self) "role"
      = some (self.credentials.role.map .plain) := rfl

theorem filteredParams_password (self : SnowflakeConnector) :
    lookupKey (filteredParams self) "password"
      = self.credentials.password.map .secret := by
  rw [filteredParams, lookupKey_filterVals _ _ (mergedParams_keys_nodup self),
    lookupKey_mergedParams_password]
  cases self.credentials.password <;> rfl

theorem filteredParams_private_key (self : SnowflakeConnector) :
    lookupKey (filteredParams self) "private_key"
      = self.credentials.private_key.map .secret := by
  rw [filteredParams, lookupKey_filterVals _ _ (mergedParams_keys_nodup self),
    lookupKey_mergedParams_private_key]
  cases self.credentials.private_key <;> rfl

theorem filteredParams_token (self : SnowflakeConnector) :
    lookupKey (filteredParams self) "token"
      = self.credentials.token.map .secret := by
  rw [filteredParams, lookupKey_filterVals _ _ (mergedParams_keys_nodup self),
    lookupKey_mergedParams_token]
  cases self.credentials.token <;> rfl

theorem filteredParams_authenticator (self : SnowflakeConnector) :
    lookupKey (filteredParams self) "authenticator"
      = self.credentials.authenticator.map .plain := by
  rw [filteredParams, lookupKey_filterVals _ _ (mergedParams_keys_nodup self),
    lookupKey_mergedParams_authenticator]
  cases self.credentials.authenticator <;> rfl

theorem filteredParams_okta_endpoint (self : SnowflakeConnector) :
    lookupKey (filteredParams self) "okta_endpoint"
      = self.credentials.okta_endpoint.map .plain := by
  rw [filteredParams, lookupKey_filterVals _ _ (mergedParams_keys_nodup self),
    lookupKey_mergedParams_okta_endpoint]
  cases self.credentials.okta_endpoint <;> rfl

theorem filteredParams_role (self : SnowflakeConnector) :
    lookupKey (filteredParams self) "role"
      = self.credentials.role.map .plain := by
  rw [filteredParams, lookupKey_filterVals _ _ (mergedParams_keys_nodup self),
    lookupKey_mergedParams_role]
  cases self.credentials.role <;> rfl

theorem revealedParams_password (self : SnowflakeConnector) :
    lookupKey (revealedParams self) "password"
      = self.credentials.password.map .plain := by
  rw [revealedParams, lookupKey_updateKey_ne _ _ _ _ (by decide),
    lookupKey_updateKey_ne _ _ _ _ (by decide), lookupKey_updateKey_self,
    filteredParams_password]
  cases self.credentials.password <;> rfl

theorem revealedParams_private_key (self : SnowflakeConnector) :
    lookupKey (revealedParams self) "private_key"
      = self.credentials.private_key.map .plain := by
  rw [revealedParams, lookupKey_updateKey_ne _ _ _ _ (by decide),
    lookupKey_updateKey_self, lookupKey_updateKey_ne _ _ _ _ (by decide),
    filteredParams_private_key]
  cases self.credentials.private_key <;> rfl

theorem revealedParams_token (self : SnowflakeConnector) :
    lookupKey (revealedParams self) "token"
      = self.credentials.token.map .plain := by
  rw [revealedParams, lookupKey_updateKey_self,
    lookupKey_updateKey_ne _ _ _ _ (by decide),
    lookupKey_updateKey_ne _ _ _ _ (by decide), filteredParams_token]
  cases self.credentials.token <;> rfl

theorem revealedParams_authenticator (self : SnowflakeConnector) :
    lookupKey (revealedParams self) "authenticator"
      = self.credentials.authenticator.map .plain := by
  rw [revealedParams, lookupKey_updateKey_ne _ _ _ _ (by decide),
    lookupKey_updateKey_ne _ _ _ _ (by decide),
    lookupKey_updateKey_ne _ _ _ _ (by decide), filteredParams_authenticator]

theorem revealedParams_okta_endpoint (self : SnowflakeConnector) :
    lookupKey (revealedParams self) "okta_endpoint"
      = self.credentials.okta_endpoint.map .plain := by
  rw [revealedParams, lookupKey_updateKey_ne _ _ _ _ (by decide),
    lookupKey_updateKey_ne _ _ _ _ (by decide),
    lookupKey_updateKey_ne _ _ _ _ (by decide), filteredParams_okta_endpoint]

theorem revealedParams_role (self : SnowflakeConnector) :
    lookupKey (revealedParams self) "role"
      = self.credentials.role.map .plain := by
  rw [revealedParams, lookupKey_updateKey_ne _ _ _ _ (by decide),
    lookupKey_updateKey_ne _ _ _ _ (by decide),
    lookupKey_updateKey_ne _ _ _ _ (by decide), filteredParams_role]

theorem revealed_sentinel_iff (self : SnowflakeConnector) :
    (lookupKey (revealedParams self) "authenticator"
        = some (.plain "okta_endpoint"))
      ↔ self.credentials.authenticator = some "okta_endpoint" := by
  rw [revealedParams_authenticator]
  cases self.credentials.authenticator <;> simp

theorem oktaParams_of_no_sentinel (self : SnowflakeConnector)
    (h : self.credentials.authenticator ≠ some "okta_endpoint") :
    oktaParams self = .ok (revealedParams self) := by
  rw [oktaParams, if_neg]
  exact fun hc => h ((revealed_sentinel_iff self).mp hc)

theorem oktaParams_sentinel (self : SnowflakeConnector) (url : String)
    (h1 : self.credentials.authenticator = some "okta_endpoint")
    (h2 : self.credentials.okta_endpoint = some url) :
    oktaParams self
      = .ok (eraseKey
          (setKey (revealedParams self) "authenticator" (.plain url))
          "okta_endpoint") := by
  rw [oktaParams, if_pos ((revealed_sentinel_iff self).mpr h1),
    revealedParams_okta_endpoint, h2]
  rfl

theorem oktaParams_lookup_ne (self : SnowflakeConnector) (cp : Params)
    (k : String) (h : oktaParams self = .ok cp)
    (h1 : k ≠ "authenticator") (h2 : k ≠ "okta_endpoint") :
    lookupKey cp k = lookupKey (revealedParams self) k := by
  rw [oktaParams] at h
  by_cases hc : lookupKey (revealedParams self) "authenticator"
      = some (.plain "okta_endpoint")
  · rw [if_pos hc] at h
    cases ho : lookupKey (revealedParams self) "okta_endpoint" with
    | none => rw [ho] at h; exact absurd h (by simp)
    | some v =>
        rw [ho] at h
        simp only [Except.ok.injEq] at h
        rw [← h, lookupKey_eraseKey_ne _ _ _ h2,
          lookupKey_setKey_ne _ _ _ _ h1]
  · rw [if_neg hc] at h
    simp only [Except.ok.injEq] at h
    rw [← h]

theorem get_connect_params_ok (self : SnowflakeConnector) (m : Params)
    (h : _get_connect_params self = .ok m) :
    ∃ cp, oktaParams self = .ok cp
      ∧ m = (match self.credentials.resolve_private_key with
             | some der => eraseKey (setKey cp "private_key" der) "password"
             | none => cp) := by
  rw [_get_connect_params] at h
  cases ho : oktaParams self with
  | error e => rw [ho] at h; exact absurd h (by simp [Except.map])
  | ok cp =>
      rw [ho] at h
      simp only [Except.map, Except.ok.injEq] at h
      exact ⟨cp, rfl, h.symm⟩

/-! ### Claim theorems about `_get_connect_params` -/

/-- C4: for every credential set in which exactly one of the auth-mode
fields password, private-key, token is populated, the connect-parameter
mapping produced by `_get_connect_params` contains exactly that one
secret field and no other secret field. -/
theorem connect_params_auth_mode_exclusive (self : SnowflakeConnector)
    (h : (self.credentials.password.isSome
            ∧ self.credentials.private_key = none
            ∧ self.credentials.token = none)
       ∨ (self.credentials.private_key.isSome
            ∧ self.credentials.password = none
            ∧ self.credentials.token = none)
       ∨ (self.credentials.token.isSome
            ∧ self.credentials.password = none
            ∧ self.credentials.private_key = none))
    (m : Params) (hm : _get_connect_params self = .ok m) :
    ((lookupKey m "password").isSome = self.credentials.password.isSome)
    ∧ ((lookupKey m "private_key").isSome
        = self.credentials.private_key.isSome)
    ∧ ((lookupKey m "token").isSome = self.credentials.token.isSome) := by
  obtain ⟨cp, hok, hmeq⟩ := get_connect_params_ok self m hm
  have hpw : lookupKey cp "password" = self.credentials.password.map .plain := by
    rw [oktaParams_lookup_ne self cp _ hok (by decide) (by decide),
      revealedParams_password]
  have hpk : lookupKey cp "private_key"
      = self.credentials.private_key.map .plain := by
    rw [oktaParams_lookup_ne self cp _ hok (by decide) (by decide),
      revealedParams_private_key]
  have htk : lookupKey cp "token" = self.credentials.token.map .plain := by
    rw [oktaParams_lookup_ne self cp _ hok (by decide) (by decide),
      revealedParams_token]
  cases hres : self.credentials.resolve_private_key with
  | none =>
      have hpkn : self.credentials.private_key = none := by
        rw [SnowflakeCredentials.resolve_private_key] at hres
        cases hx : self.credentials.private_key
        · rfl
        · rw [hx] at hres; simp at hres
      simp only [hres] at hmeq
      subst hmeq
      refine ⟨?_, ?_, ?_⟩
      · rw [hpw]; cases self.credentials.password <;> rfl
      · rw [hpk, hpkn]; rfl
      · rw [htk]; cases self.credentials.token <;> rfl
  | some der =>
      have hkk : ∃ kk, self.credentials.private_key = some kk := by
        rw [SnowflakeCredentials.resolve_private_key] at hres
        cases hx : self.credentials.private_key
        · rw [hx] at hres; simp at hres
        · exact ⟨_, rfl⟩
      obtain ⟨kk, hkk⟩ := hkk
      have hpwn : self.credentials.password = none := by
        rcases h with ⟨_, hc, _⟩ | ⟨_, hc, _⟩ | ⟨_, _, hc⟩
        · rw [hkk] at hc; cases hc
        · exact hc
        · rw [hkk] at hc; cases hc
      have htkn : self.credentials.token = none := by
        rcases h with ⟨_, hc1, _⟩ | ⟨_, _, hc2⟩ | ⟨_, _, hc⟩
        · rw [hkk] at hc1; cases hc1
        · exact hc2
        · rw [hkk] at hc; cases hc
      simp only [hres] at hmeq
      subst hmeq
      refine ⟨?_, ?_, ?_⟩
      · rw [lookupKey_eraseKey_self, hpwn]; rfl
      · rw [lookupKey_eraseKey_ne _ _ _ (by decide), lookupKey_setKey_self,
          hkk]; rfl
      · rw [lookupKey_eraseKey_ne _ _ _ (by decide),
          lookupKey_setKey_ne _ _ _ _ (by decide), htk, htkn]; rfl

/-- Witness for C4 at a password-only credential set. -/
theorem connect_params_auth_mode_exclusive_witness :
    ((lookupKey paramsPasswordOnly "password").isSome
        = connPasswordOnly.credentials.password.isSome)
    ∧ ((lookupKey paramsPasswordOnly "private_key").isSome
        = connPasswordOnly.credentials.private_key.isSome)
    ∧ ((lookupKey paramsPasswordOnly "token").isSome
        = connPasswordOnly.credentials.token.isSome) :=
  connect_params_auth_mode_exclusive connPasswordOnly
    (Or.inl (by decide)) paramsPasswordOnly rfl

/-- C5: whenever a private key is resolvable from the credentials, the
mapping returned by `_get_connect_params` contains no password field. -/
theorem connect_params_key_supersedes_password (self : SnowflakeConnector)
    (der : CVal) (h : self.credentials.resolve_private_key = some der)
    (m : Params) (hm : _get_connect_params self = .ok m) :
    lookupKey m "password" = none := by
  obtain ⟨cp, hok, hmeq⟩ := get_connect_params_ok self m hm
  simp only [h] at hmeq
  subst hmeq
  exact lookupKey_eraseKey_self _ _

/-- Witness for C5 at a credential set holding both a password and a
private key. -/
theorem connect_params_key_supersedes_password_witness :
    lookupKey paramsWithKey "password" = none :=
  connect_params_key_supersedes_password connWithKey (.plain "DER KEY")
    rfl paramsWithKey rfl

/-- C6: every optional field whose value is unset is absent from the
mapping returned by `_get_connect_params` (no nulls are passed to the
underlying connect call). -/
theorem connect_params_no_null_leakage (self : SnowflakeConnector)
    (m : Params) (hm : _get_connect_params self = .ok m) :
    (self.credentials.password = none → lookupKey m "password" = none)
    ∧ (self.credentials.private_key = none
        → lookupKey m "private_key" = none)
    ∧ (self.credentials.token = none → lookupKey m "token" = none)
    ∧ (self.credentials.authenticator = none
        → lookupKey m "authenticator" = none)
    ∧ (self.credentials.okta_endpoint = none
        → lookupKey m "okta_endpoint" = none)
    ∧ (self.credentials.role = none → lookupKey m "role" = none) := by
  obtain ⟨cp, hok, hmeq⟩ := get_connect_params_ok self m hm
  have hcp := fun (k : String) (h1 : k ≠ "authenticator")
      (h2 : k ≠ "okta_endpoint") => oktaParams_lookup_ne self cp k hok h1 h2
  refine ⟨?_, ?_, ?_, ?_, ?_, ?_⟩
  · intro hn
    cases hres : self.credentials.resolve_private_key with
    | none =>
        simp only [hres] at hmeq; subst hmeq
        rw [hcp _ (by decide) (by decide), revealedParams_password, hn]; rfl
    | some der =>
        simp only [hres] at hmeq; subst hmeq
        exact lookupKey_eraseKey_self _ _
  · intro hn
    have hres : self.credentials.resolve_private_key = none := by
      rw [SnowflakeCredentials.resolve_private_key, hn]; rfl
    simp only [hres] at hmeq; subst hmeq
    rw [hcp _ (by decide) (by decide), revealedParams_private_key, hn]; rfl
  · intro hn
    cases hres : self.credentials.resolve_private_key with
    | none =>
        simp only [hres] at hmeq; subst hmeq
        rw [hcp _ (by decide) (by decide), revealedParams_token, hn]; rfl
    | some der =>
        simp only [hres] at hmeq; subst hmeq
        rw [lookupKey_eraseKey_ne _ _ _ (by decide),
          lookupKey_setKey_ne _ _ _ _ (by decide),
          hcp _ (by decide) (by decide), revealedParams_token, hn]; rfl
  · intro hn
    have hok2 : oktaParams self = .ok (revealedParams self) :=
      oktaParams_of_no_sentinel self (by rw [hn]; simp)
    rw [hok2] at hok
    injection hok with hcpe
    cases hres : self.credentials.resolve_private_key with
    | none =>
        simp only [hres] at hmeq; subst hmeq
        rw [← hcpe, revealedParams_authenticator, hn]; rfl
    | some der =>
        simp only [hres] at hmeq; subst hmeq
        rw [lookupKey_eraseKey_ne _ _ _ (by decide),
          lookupKey_setKey_ne _ _ _ _ (by decide), ← hcpe,
          revealedParams_authenticator, hn]; rfl
  · intro hn
    by_cases hs : self.credentials.authenticator = some "okta_endpoint"
    · exfalso
      rw [oktaParams, if_pos ((revealed_sentinel_iff self).mpr hs),
        revealedParams_okta_endpoint, hn] at hok
      exact Except.noConfusion hok
    · have hok2 : oktaParams self = .ok (revealedParams self) :=
        oktaParams_of_no_sentinel self hs
      rw [hok2] at hok
      injection hok with hcpe
      cases hres : self.credentials.resolve_private_key with
      | none =>
          simp only [hres] at hmeq; subst hmeq
          rw [← hcpe, revealedParams_okta_endpoint, hn]; rfl
      | some der =>
          simp only [hres] at hmeq; subst hmeq
          rw [lookupKey_eraseKey_ne _ _ _ (by decide),
            lookupKey_setKey_ne _ _ _ _ (by decide), ← hcpe,
            revealedParams_okta_endpoint, hn]; rfl
  · intro hn
    cases hres : self.credentials.resolve_private_key with
    | none =>
        simp only [hres] at hmeq; subst hmeq
        rw [hcp _ (by decide) (by decide), revealedParams_role, hn]; rfl
    | some der =>
        simp only [hres] at hmeq; subst hmeq
        rw [lookupKey_eraseKey_ne _ _ _ (by decide),
          lookupKey_setKey_ne _ _ _ _ (by decide),
          hcp _ (by decide) (by decide), revealedParams_role, hn]; rfl

/-- Witness for C6 at a credential set with every optional field unset. -/
theorem connect_params_no_null_leakage_witness :
    lookupKey paramsAllUnset "password" = none
    ∧ lookupKey paramsAllUnset "private_key" = none
    ∧ lookupKey paramsAllUnset "token" = none
    ∧ lookupKey paramsAllUnset "authenticator" = none
    ∧ lookupKey paramsAllUnset "okta_endpoint" = none
    ∧ lookupKey paramsAllUnset "role" = none := by
  obtain ⟨h1, h2, h3, h4, h5, h6⟩ :=
    connect_params_no_null_leakage connAllUnset paramsAllUnset rfl
  exact ⟨h1 rfl, h2 rfl, h3 rfl, h4 rfl, h5 rfl, h6 rfl⟩

/-- C7: when the authenticator field equals the sentinel
`"okta_endpoint"`, the mapping returned by `_get_connect_params` carries
the literal endpoint URL as the authenticator value and no longer
contains the sentinel `okta_endpoint` field. -/
theorem connect_params_okta_substitution (self : SnowflakeConnector)
    (url : String)
    (h1 : self.credentials.authenticator = some "okta_endpoint")
    (h2 : self.credentials.okta_endpoint = some url)
    (m : Params) (hm : _get_connect_params self = .ok m) :
    lookupKey m "authenticator" = some (.plain url)
    ∧ lookupKey m "okta_endpoint" = none := by
  obtain ⟨cp, hok, hmeq⟩ := get_connect_params_ok self m hm
  rw [oktaParams_sentinel self url h1 h2] at hok
  injection hok with hcpe
  have hauth : lookupKey cp "authenticator" = some (.plain url) := by
    rw [← hcpe, lookupKey_eraseKey_ne _ _ _ (by decide),
      lookupKey_setKey_self]
  have hokta : lookupKey cp "okta_endpoint" = none := by
    rw [← hcpe, lookupKey_eraseKey_self]
  cases hres : self.credentials.resolve_private_key with
  | none =>
      simp only [hres] at hmeq; subst hmeq
      exact ⟨hauth, hokta⟩
  | some der =>
      simp only [hres] at hmeq; subst hmeq
      constructor
      · rw [lookupKey_eraseKey_ne _ _ _ (by decide),
          lookupKey_setKey_ne _ _ _ _ (by decide), hauth]
      · rw [lookupKey_eraseKey_ne _ _ _ (by decide),
          lookupKey_setKey_ne _ _ _ _ (by decide), hokta]

/-- Witness for C7 at a credential set using the SSO-endpoint sentinel. -/
theorem connect_params_okta_substitution_witness :
    lookupKey paramsOkta "authenticator"
      = some (.plain "https://dev-123.okta.com")
    ∧ lookupKey paramsOkta "okta_endpoint" = none :=
  connect_params_okta_substitution connOkta "https://dev-123.okta.com"
    rfl rfl paramsOkta rfl

/-! ### Poll-loop lemmas -/

theorem pollEvents_running_step (cancelAt : Option Nat)
    (rest : List StatusReport) (d : Nat) (h : cancelAt ≠ some d) :
    pollEvents cancelAt (.running :: rest) d
      = ((pollEvents cancelAt rest (d + 1)).1,
         .statusCheck :: .sleep :: (pollEvents cancelAt rest (d + 1)).2) := by
  simp only [pollEvents]
  rw [if_neg h]

theorem pollEvents_success (n : Nat) (rest : List StatusReport) (d : Nat) :
    pollEvents none (List.replicate n .running ++ .succeeded :: rest) d
      = (.ok (), (List.replicate n [Event.statusCheck, Event.sleep]).flatten
          ++ [.statusCheck]) := by
  induction n generalizing d with
  | zero => simp [pollEvents]
  | succ k ih =>
      rw [List.replicate_succ, List.cons_append,
        pollEvents_running_step _ _ _ (by simp), ih (d + 1)]
      simp [List.replicate_succ]

theorem pollEvents_cancel (k : Nat) (rest : List StatusReport) (d : Nat) :
    pollEvents (some (d + k)) (List.replicate (k + 1) .running ++ rest) d
      = (.error .cancelled,
          (List.replicate (k + 1)
            [Event.statusCheck, Event.sleep]).flatten) := by
  induction k generalizing d with
  | zero => simp [pollEvents]
  | succ j ih =>
      rw [List.replicate_succ, List.cons_append,
        pollEvents_running_step _ _ _ (by simp)]
      have harg : d + (j + 1) = (d + 1) + j := by omega
      rw [harg, ih (d + 1)]
      simp [List.replicate_succ]

theorem count_flatten_replicate (n : Nat) (l : List Event) (e : Event) :
    ((List.replicate n l).flatten).count e = n * l.count e := by
  induction n with
  | zero => simp
  | succ k ih => simp [List.replicate_succ, ih, Nat.succ_mul, Nat.add_comm]

theorem mem_flatten_replicate (n : Nat) (l : List Event) (e : Event)
    (h : e ∈ (List.replicate n l).flatten) : e ∈ l := by
  rw [List.mem_flatten] at h
  obtain ⟨l', hl', he⟩ := h
  rwa [List.eq_of_mem_replicate hl'] at he

/-! ### Claim theorems about the async executor -/

/-- C3: when the successive status checks report running `n` times and
then succeeded, `snowflake_query` succeeds, performs exactly `n`
suspensions, and `n + 1` status checks (given the status sequence
running, running, succeeded, exactly 2 suspensions occur before results
are fetched). -/
theorem query_sleeps_match_running_checks (env : ExecEnv) (n : Nat)
    (rest : List StatusReport)
    (hc : env.cancelAt = none)
    (hr : env.reports = List.replicate n .running ++ .succeeded :: rest) :
    (snowflake_query env).1 = .ok env.rows
    ∧ (snowflake_query env).2.count .sleep = n
    ∧ (snowflake_query env).2.count .statusCheck = n + 1 := by
  have hp : pollEvents env.cancelAt env.reports 0
      = (.ok (), (List.replicate n [Event.statusCheck, Event.sleep]).flatten
          ++ [.statusCheck]) := by
    rw [hc, hr]; exact pollEvents_success n rest 0
  refine ⟨?_, ?_, ?_⟩ <;>
    simp [snowflake_query, runFetch, opBody, withBracket, hp,
      List.count_append, List.count_cons, count_flatten_replicate]

/-- Witness for C3 at the status sequence running, running, succeeded. -/
theorem query_sleeps_match_running_checks_witness :
    (snowflake_query envTwoRunning).1 = .ok envTwoRunning.rows
    ∧ (snowflake_query envTwoRunning).2.count .sleep = 2
    ∧ (snowflake_query envTwoRunning).2.count .statusCheck = 2 + 1 :=
  query_sleeps_match_running_checks envTwoRunning 2 [] rfl rfl

/-- C8: a cancellation delivered during the sleep after the (k+1)-st
running status check makes the executor propagate the cancellation,
perform no further status checks, never call `get_results_from_sfqid`
or `fetchall`, and still close the cursor and the connection. -/
theorem query_cancelled_in_sleep (env : ExecEnv) (k : Nat)
    (rest : List StatusReport)
    (hc : env.cancelAt = some k)
    (hr : env.reports = List.replicate (k + 1) .running ++ rest) :
    (snowflake_query env).1 = .error .cancelled
    ∧ (snowflake_query env).2.count .statusCheck = k + 1
    ∧ Event.loadResults ∉ (snowflake_query env).2
    ∧ Event.fetchAllCall ∉ (snowflake_query env).2
    ∧ Event.cursorClose ∈ (snowflake_query env).2
    ∧ Event.connClose ∈ (snowflake_query env).2 := by
  have hp : pollEvents env.cancelAt env.reports 0
      = (.error .cancelled,
          (List.replicate (k + 1)
            [Event.statusCheck, Event.sleep]).flatten) := by
    rw [hc, hr]
    have h0 := pollEvents_cancel k rest 0
    rwa [Nat.zero_add] at h0
  refine ⟨?_, ?_, ?_, ?_, ?_, ?_⟩
  · simp [snowflake_query, runFetch, opBody, withBracket, hp]
  · simp [snowflake_query, runFetch, opBody, withBracket, hp,
      List.count_append, List.count_cons, count_flatten_replicate]
  · intro hmem
    simp [snowflake_query, runFetch, opBody, withBracket, hp] at hmem
  · intro hmem
    simp [snowflake_query, runFetch, opBody, withBracket, hp] at hmem
  · simp [snowflake_query, runFetch, opBody, withBracket, hp]
  · simp [snowflake_query, runFetch, opBody, withBracket, hp]

/-- Witness for C8: cancellation during the second sleep (index 1). -/
theorem query_cancelled_in_sleep_witness :
    (snowflake_query envCancelSecondSleep).1 = .error .cancelled
    ∧ (snowflake_query envCancelSecondSleep).2.count .statusCheck = 1 + 1
    ∧ Event.loadResults ∉ (snowflake_query envCancelSecondSleep).2
    ∧ Event.fetchAllCall ∉ (snowflake_query envCancelSecondSleep).2
    ∧ Event.cursorClose ∈ (snowflake_query envCancelSecondSleep).2
    ∧ Event.connClose ∈ (snowflake_query envCancelSecondSleep).2 :=
  query_cancelled_in_sleep envCancelSecondSleep 1 [.running] rfl rfl

/-- C10: a `fetch_many` call without an explicit limit argument uses the
default limit 5, so a successful call returns at most 5 rows. -/
theorem fetch_many_default_limit_five (env : ExecEnv) (rows : List Row)
    (h : (fetch_many_default env).1 = .ok rows) :
    rows.length ≤ 5 := by
  cases hb : (opBody env).1 with
  | error e =>
      rw [fetch_many_default, fetch_many, runFetch] at h
      simp [withBracket, hb] at h
  | ok rs =>
      rw [fetch_many_default, fetch_many, runFetch] at h
      simp [withBracket, hb] at h
      rw [← h, List.length_take]
      exact Nat.min_le_left _ _

/-- Witness for C10: seven rows available, five returned. -/
theorem fetch_many_default_limit_five_witness :
    ([[1], [2], [3], [4], [5]] : List Row).length ≤ 5 :=
  fetch_many_default_limit_five envSevenRows [[1], [2], [3], [4], [5]] rfl

/-! ### Multiquery lemmas -/

theorem dropLast_append_singleton {α : Type} (l : List α) (a : α) :
    (l ++ [a]).dropLast = l :=
  List.dropLast_concat

theorem runQueries_all_ok (env : String → ExecEnv)
    (h : ∀ q, pollOutcome (env q) = .ok ()) (l : List String) :
    runQueries env l = (.ok (l.map fun q => (env q).rows), l) := by
  induction l with
  | nil => rfl
  | cons q rest ih => simp [runQueries, h q, ih]

/-! ### Claim theorems about `snowflake_multiquery` -/

/-- C1: with `as_transaction` true and every operation succeeding, the
runner returns one result set per caller-supplied operation in input
order; without control results the returned sequence has exactly the
length of the operation list, and with control results it has two more
entries, the BEGIN result first and the COMMIT result last. -/
theorem multiquery_transaction_shape (env : String → ExecEnv)
    (queries : List String)
    (h : ∀ q, pollOutcome (env q) = .ok ()) :
    ((snowflake_multiquery env queries true false).outcome
        = .ok (queries.map fun q => (env q).rows))
    ∧ ((snowflake_multiquery env queries true true).outcome
        = .ok ((env BEGIN_TRANSACTION_STATEMENT).rows
            :: (queries.map fun q => (env q).rows)
            ++ [(env END_TRANSACTION_STATEMENT).rows]))
    ∧ (queries.map fun q => (env q).rows).length = queries.length
    ∧ ((env BEGIN_TRANSACTION_STATEMENT).rows
          :: (queries.map fun q => (env q).rows)
          ++ [(env END_TRANSACTION_STATEMENT).rows]).length
        = queries.length + 2 := by
  have hrun := runQueries_all_ok env h
    (BEGIN_TRANSACTION_STATEMENT :: queries ++ [END_TRANSACTION_STATEMENT])
  refine ⟨?_, ?_, ?_, ?_⟩
  · simp only [snowflake_multiquery, if_true]
    rw [hrun]
    simp [dropLast_append_singleton]
  · simp only [snowflake_multiquery, if_true]
    rw [hrun]
    simp
  · simp
  · simp

/-- Witness for C1 at two concrete operations, all succeeding. -/
theorem multiquery_transaction_shape_witness :
    ((snowflake_multiquery envAllSucceed ["SELECT 1", "SELECT 2"] true
        false).outcome
      = .ok (["SELECT 1", "SELECT 2"].map fun q => (envAllSucceed q).rows))
    ∧ ((snowflake_multiquery envAllSucceed ["SELECT 1", "SELECT 2"] true
        true).outcome
      = .ok ((envAllSucceed BEGIN_TRANSACTION_STATEMENT).rows
          :: (["SELECT 1", "SELECT 2"].map fun q => (envAllSucceed q).rows)
          ++ [(envAllSucceed END_TRANSACTION_STATEMENT).rows]))
    ∧ (["SELECT 1", "SELECT 2"].map fun q => (envAllSucceed q).rows).length
        = (["SELECT 1", "SELECT 2"] : List String).length
    ∧ ((envAllSucceed BEGIN_TRANSACTION_STATEMENT).rows
          :: (["SELECT 1", "SELECT 2"].map fun q => (envAllSucceed q).rows)
          ++ [(envAllSucceed END_TRANSACTION_STATEMENT).rows]).length
        = (["SELECT 1", "SELECT 2"] : List String).length + 2 :=
  multiquery_transaction_shape envAllSucceed ["SELECT 1", "SELECT 2"]
    (fun _ => rfl)

/-- C2: when the status check of the second of three operations raises,
the third operation is never submitted, the error propagates to the
caller, and no collected results are returned. -/
theorem multiquery_aborts_on_status_error (env : String → ExecEnv)
    (q1 q2 q3 : String) (t incl : Bool)
    (hb : pollOutcome (env BEGIN_TRANSACTION_STATEMENT) = .ok ())
    (h1 : pollOutcome (env q1) = .ok ())
    (h2 : pollOutcome (env q2) = .error .statusError)
    (h31 : q3 ≠ q1) (h32 : q3 ≠ q2)
    (h3b : q3 ≠ BEGIN_TRANSACTION_STATEMENT) :
    ((snowflake_multiquery env [q1, q2, q3] t incl).outcome
        = .error .statusError)
    ∧ q3 ∉ (snowflake_multiquery env [q1, q2, q3] t incl).submitted
    ∧ ∀ rss, (snowflake_multiquery env [q1, q2, q3] t incl).outcome
        ≠ .ok rss := by
  cases t with
  | false => simp [snowflake_multiquery, runQueries, h1, h2, h31, h32]
  | true =>
      simp [snowflake_multiquery, runQueries, hb, h1, h2, h31, h32, h3b]

/-- Witness for C2: three concrete operations with the second failing
its status check, in a transaction. -/
theorem multiquery_aborts_on_status_error_witness :
    ((snowflake_multiquery envSecondFails
        ["SELECT 1", "SELECT 2", "SELECT 3"] true false).outcome
      = .error .statusError)
    ∧ "SELECT 3" ∉ (snowflake_multiquery envSecondFails
        ["SELECT 1", "SELECT 2", "SELECT 3"] true false).submitted
    ∧ ∀ rss, (snowflake_multiquery envSecondFails
        ["SELECT 1", "SELECT 2", "SELECT 3"] true false).outcome
        ≠ .ok rss :=
  multiquery_aborts_on_status_error envSecondFails "SELECT 1" "SELECT 2"
    "SELECT 3" true false rfl rfl rfl (by decide) (by decide) (by decide)

/-- C9: with `as_transaction` true, `snowflake_multiquery` mutates the
caller-supplied queries list in place: afterwards the caller's list has
BEGIN TRANSACTION inserted at index 0 and COMMIT appended at the end,
whatever the environment does, and is not left unchanged. -/
theorem multiquery_mutates_caller_list (env : String → ExecEnv)
    (queries : List String) (incl : Bool) :
    ((snowflake_multiquery env queries true incl).queriesFinal
        = BEGIN_TRANSACTION_STATEMENT :: queries
            ++ [END_TRANSACTION_STATEMENT])
    ∧ (snowflake_multiquery env queries true incl).queriesFinal
        ≠ queries := by
  constructor
  · rfl
  · intro hcon
    have hcon2 : BEGIN_TRANSACTION_STATEMENT :: queries
        ++ [END_TRANSACTION_STATEMENT] = queries := hcon
    have hlen := congrArg List.length hcon2
    simp only [List.length_cons, List.length_append,
      List.length_singleton] at hlen
    omega
